import Mathlib

/-!
Verification development for the typed-board repository: a shallow
embedding of its type-flow pipeline (Pothos schema builder, schema
publisher, graphql-zeus typed client wrapper, transport adapter) and
proofs about the embedded definitions.

Source map:
- `packages/api/src/schema.ts` (and its variant in `part_001`): the Post
  entity, the `posts` query field, the `createPost` mutation field,
  `schema`, `printSchema`, `writeSchema`.
- `part_000` (`src/index.ts`): server entry point, writes the schema at
  startup after starting the HTTP listener.
- `part_003` (generated `const.ts`): `AllTypesProps`, `ReturnTypes`.
- `part_005` (`src/lib/zeus.ts` and callers): `thunder`, `query`,
  `mutate`, the wire format of requests.
-/

/- ## Data model: the Prisma Post store

`model Post` of `prisma/schema.prisma`: three columns, `id` autoincrement,
`title` and `body` strings.  The persistence engine is an external
collaborator consumed through a create/list contract, embedded here as a
pure state-passing store. -/

structure Post where
  id : Nat
  title : String
  body : String
deriving DecidableEq, Repr

structure Db where
  posts : List Post
  nextId : Nat
deriving DecidableEq, Repr

/-- The empty database; autoincrement ids start at 1. -/
def Db.empty : Db := ⟨[], 1⟩

/-- Embeds `prisma.post.create({ data: { title, body } })`: appends a post
with the next autoincrement identifier and returns the new state together
with the created row (the mutation resolver returns it in full). -/
def createPost (db : Db) (title body : String) : Db × Post :=
  let p : Post := ⟨db.nextId, title, body⟩
  (⟨db.posts ++ [p], db.nextId + 1⟩, p)

/-- Insert a post into a list kept in descending id order. -/
def insertDesc (p : Post) : List Post → List Post
  | [] => [p]
  | q :: rest => if q.id ≤ p.id then p :: q :: rest else q :: insertDesc p rest

/-- Sort posts by identifier, descending (the `orderBy: { id: "desc" }`
behaviour of the external store). -/
def sortByIdDesc : List Post → List Post
  | [] => []
  | p :: rest => insertDesc p (sortByIdDesc rest)

/-- Embeds `prisma.post.findMany({ orderBy: { id: "desc" }, take? })`:
all rows sorted by id descending, truncated when a `take` count is given. -/
def findManyByIdDesc (db : Db) (takeCount : Option Nat) : List Post :=
  match takeCount with
  | some n => (sortByIdDesc db.posts).take n
  | none => sortByIdDesc db.posts

/-- The `posts` query resolver of `packages/api/src/schema.ts` (same in
`part_001`): `prisma.post.findMany({ ...query, orderBy: { id: "desc" } })`
with no `take` argument. -/
def postsResolver (db : Db) : List Post :=
  findManyByIdDesc db none

/- ## Schema graph

The graph built by the Pothos builder calls in `schema.ts`:
`builder.prismaObject("Post", ...)`, `builder.queryType(...)`,
`builder.mutationType(...)`, in declaration order.  Argument and field
types carry their printed GraphQL form (the `!` marks non-null). -/

structure ArgDef where
  name : String
  typ : String
deriving DecidableEq, Repr

structure FieldSpec where
  name : String
  args : List ArgDef
  typ : String
deriving DecidableEq, Repr

structure ObjectDef where
  name : String
  fields : List FieldSpec
deriving DecidableEq, Repr

/-- Fields of the `Post` object type: only the three explicitly exposed
columns (`t.exposeID("id")`, `t.exposeString("title")`,
`t.exposeString("body")`), all non-null. -/
def postTypeFields : List FieldSpec :=
  [⟨"id", [], "ID!"⟩, ⟨"title", [], "String!"⟩, ⟨"body", [], "String!"⟩]

/-- Fields of the `Query` root type: the single `posts` field, declared
with `type: [PostType]` and no argument record. -/
def queryTypeFields : List FieldSpec :=
  [⟨"posts", [], "[Post!]!"⟩]

/-- Fields of the `Mutation` root type: `createPost` with two required
string arguments, returning the created post in full.  Argument order is
the one of the printed interchange artifact. -/
def mutationTypeFields : List FieldSpec :=
  [⟨"createPost", [⟨"body", "String!"⟩, ⟨"title", "String!"⟩], "Post!"⟩]

/-- The application schema, `builder.toSchema()`. -/
def schema : List ObjectDef :=
  [⟨"Post", postTypeFields⟩, ⟨"Query", queryTypeFields⟩, ⟨"Mutation", mutationTypeFields⟩]

/-- Look up a field of a type by name. -/
def findFieldSpec : List FieldSpec → String → Option FieldSpec
  | [], _ => none
  | f :: rest, n => if f.name = n then some f else findFieldSpec rest n

/- ## Schema publisher: printSchema -/

/-- Serialize an argument list in SDL form, empty for argument-free fields. -/
def printArgs (args : List ArgDef) : String :=
  match args with
  | [] => ""
  | _ => "(" ++ String.intercalate ", " (args.map fun a => a.name ++ ": " ++ a.typ) ++ ")"

/-- Serialize one field declaration line. -/
def printFieldSpec (f : FieldSpec) : String :=
  "  " ++ f.name ++ printArgs f.args ++ ": " ++ f.typ

/-- Serialize one object type block. -/
def printObjectDef (o : ObjectDef) : String :=
  "type " ++ o.name ++ " \x7b\n" ++
    String.intercalate "\n" (o.fields.map printFieldSpec) ++ "\n\x7d"

/-- Embeds graphql's `printSchema`: a pure, deterministic serialization of
the schema graph into interchange text form. -/
def printSchema (g : List ObjectDef) : String :=
  String.intercalate "\n\n" (g.map printObjectDef)

/- ## Typed Request Generator (graphql-zeus)

`part_003` is the generated `const.ts` of the zeus client.  The generated
`index.ts` (gitignored `src/zeus/`) carries the selection-to-result-type
derivation and the `Thunder` runtime; those two are modelled from the
spec below, over the tables that are in the repository. -/

/-- The generated `AllTypesProps` table of `part_003`: per root type, per
field, the declared argument names.  `Query` has no entry at all; the
only entry is `Mutation.createPost` with an empty argument-property map. -/
def AllTypesProps : List (String × List (String × List String)) :=
  [("Mutation", [("createPost", [])])]

/-- The generated `ReturnTypes` table of `part_003`: scalar kind of each
field of each object type. -/
def ReturnTypes : List (String × List (String × String)) :=
  [("Mutation", [("createPost", "Post")]),
   ("Post", [("body", "String"), ("id", "ID"), ("title", "String")]),
   ("Query", [("posts", "Post")])]

/-- Scalar kind plus nullability of one result field. -/
structure GField where
  kind : String
  nonNull : Bool
deriving DecidableEq, Repr

/-- A result object type: association of field names to typed fields. -/
abbrev ObjectType := List (String × GField)

/-- The `Post` result type as the generated client sees it: the field
kinds of `ReturnTypes.Post` (`part_003`), each non-null as declared by the
interchange artifact (`id: ID!`, `body: String!`, `title: String!`). -/
def PostReturnType : ObjectType :=
  [("body", ⟨"String", true⟩), ("id", ⟨"ID", true⟩), ("title", ⟨"String", true⟩)]

/-- Modelled from the spec: the Typed Request Generator's structural type
derivation (the `MapType` machinery of the generated, gitignored zeus
`index.ts`).  Given a selection shape `S` over a result type `T` it keeps
exactly the fields of `T` selected by `S`, each with the kind and
nullability declared by `T`; a selection of zero fields over a non-scalar
type is a generation-time error, never a silently empty type. -/
def deriveResultType (S : List String) (T : ObjectType) : Except String ObjectType :=
  if S.isEmpty then Except.error "empty selection on a non-scalar type"
  else Except.ok (T.filter fun p => S.contains p.1)

/- ## Transport Adapter (`src/lib/zeus.ts`, part_005 lines 459-483)

JSON values as delivered by `response.json()`, and the single HTTP
request each operation issues. -/

inductive Json where
  | null
  | str (s : String)
  | obj (fields : List (String × Json))
deriving Repr

structure Request where
  url : String
  method : String
  contentType : String
  body : String
deriving DecidableEq, Repr

/-- The fixed endpoint of the transport wrapper. -/
def endpoint : String := "http://localhost:4000/graphql"

/-- JSON string escaping (quote and backslash) as done by
`JSON.stringify` on the strings this application sends. -/
def escapeString (s : String) : String :=
  String.join (s.data.map fun c =>
    if c = '\\' then "\\\\" else if c = '\"' then "\\\"" else String.singleton c)

/-- Serialize a flat string-valued argument record as a JSON object, in
record order, as `JSON.stringify` does. -/
def stringifyVariables (vars : List (String × String)) : String :=
  "\x7b" ++
    String.intercalate ","
      (vars.map fun kv => "\"" ++ escapeString kv.1 ++ "\":\"" ++ escapeString kv.2 ++ "\"") ++
    "\x7d"

/-- The request body `JSON.stringify({ query, variables })`: the operation
text under key `query` first, the variables object under key `variables`. -/
def requestBody (queryText : String) (vars : List (String × String)) : String :=
  "\x7b\"query\":\"" ++ escapeString queryText ++ "\",\"variables\":" ++
    stringifyVariables vars ++ "\x7d"

/-- The single POST request built by the function passed to `Thunder`:
fixed url, `method: "POST"`, JSON content type, stringified body. -/
def mkRequest (queryText : String) (vars : List (String × String)) : Request :=
  ⟨endpoint, "POST", "application/json", requestBody queryText vars⟩

/-- First field of a JSON object with the given key, `Json.null`
(JavaScript `undefined`) when absent. -/
def findField : List (String × Json) → String → Json
  | [], _ => Json.null
  | (k, v) :: rest, key => if k = key then v else findField rest key

/-- The `.then(({ data }) => data)` step: destructuring the parsed
response.  Destructuring `null` throws; any other value yields its `data`
member (or `undefined`, embedded as `Json.null`). -/
def getData : Json → Except String Json
  | Json.null => Except.error "TypeError: cannot destructure null"
  | Json.obj fields => Except.ok (findField fields "data")
  | Json.str _ => Except.ok Json.null

/-- A root-field selection as written by the callers: the root field
name, its flat string-valued argument record, and the selected subfields. -/
structure RootSelection where
  field : String
  args : List (String × String)
  sel : List String
deriving DecidableEq, Repr

/-- Render the argument record inside the operation text. -/
def buildArgs (args : List (String × String)) : String :=
  match args with
  | [] => ""
  | _ => "(" ++ String.intercalate "," (args.map fun kv => kv.1 ++ ":$" ++ kv.1) ++ ")"

/-- Render the selected subfields of the root field. -/
def buildSelection (fields : List String) : String :=
  "\x7b" ++ String.intercalate " " fields ++ "\x7d"

/-- The operation text sent under the `query` key. -/
def buildOperation (op : String) (s : RootSelection) : String :=
  op ++ "\x7b" ++ s.field ++ buildArgs s.args ++ buildSelection s.sel ++ "\x7d"

/-- Modelled from the spec: the generated zeus `Thunder` (gitignored
`src/zeus/index.ts`).  It turns the selection into the operation text,
passes the selection's argument record as the variables, applies the
supplied network function once, and hands its result (the unwrapped
`data` object) back to the caller unchanged — callers such as
`+page.svelte` then read `data.posts` themselves. -/
def Thunder (fn : String → List (String × String) → Except String Json)
    (op : String) (s : RootSelection) : Except String Json :=
  fn (buildOperation op s) s.args

/-- The request and the outcome of one wire-level call: the function
passed to `Thunder` in `thunder`, with the issued request exposed. -/
def thunderTraced (fetchFn : Request → Except String Json)
    (op : String) (s : RootSelection) : Request × Except String Json :=
  let r := mkRequest (buildOperation op s) s.args
  (r, (fetchFn r).bind getData)

/-- `thunder` of `src/lib/zeus.ts`: wraps a custom `fetch` function;
POSTs `JSON.stringify({ query, variables })` to the fixed endpoint, parses
the response as JSON and returns its `data` field, with no error handling
of its own — failures of `fetchFn` propagate unchanged. -/
def thunder (fetchFn : Request → Except String Json)
    (op : String) (s : RootSelection) : Except String Json :=
  (thunderTraced fetchFn op s).2

/-- `query` of `src/lib/zeus.ts`: explicit fetch injection, for
server-side rendering: `thunder(fetch)("query")(query)`. -/
def query (q : RootSelection) (fetchFn : Request → Except String Json) :
    Except String Json :=
  thunder fetchFn "query" q

/-- `mutate` of `src/lib/zeus.ts`: ambient fetch (passed explicitly in
this embedding): `thunder(fetch)("mutation")(mutation)`. -/
def mutate (ambientFetch : Request → Except String Json) (m : RootSelection) :
    Except String Json :=
  thunder ambientFetch "mutation" m

/- ## Schema publisher: the filesystem write

A filesystem is embedded as the set of existing directories (segment
paths) and an association of file paths to contents.  `writeFile` fails
with `ENOENT` when the parent directory is missing; `mkdir` with
`recursive: true` creates the directory and every ancestor. -/

structure FS where
  dirs : List (List String)
  files : List (List String × String)
deriving DecidableEq, Repr

/-- Content of a file, if present. -/
def lookupFile : List (List String × String) → List String → Option String
  | [], _ => none
  | (q, c) :: rest, p => if q = p then some c else lookupFile rest p

/-- Store a file, replacing any previous content at the same path. -/
def setFile : List (List String × String) → List String → String → List (List String × String)
  | [], p, c => [(p, c)]
  | (q, d) :: rest, p, c => if q = p then (p, c) :: rest else (q, d) :: setFile rest p c

/-- `writeFile` of `node:fs/promises`: writes `name` inside `dir`,
failing with an I/O error when the directory does not exist. -/
def writeFileFS (fs : FS) (dir : List String) (name : String) (content : String) :
    Except String FS :=
  if dir ∈ fs.dirs then
    Except.ok { fs with files := setFile fs.files (dir ++ [name]) content }
  else Except.error "ENOENT"

/-- Every prefix of a segment path, shortest first. -/
def allAncestors (d : List String) : List (List String) :=
  (List.range (d.length + 1)).map fun n => d.take n

/-- `mkdir(dir, { recursive: true })`: the directory and all its
ancestors exist afterwards. -/
def mkdirRecursive (fs : FS) (d : List String) : FS :=
  { fs with dirs := allAncestors d ++ fs.dirs }

/-- The target path of the schema publisher: `build/schema.graphql`
resolved against the working directory of the invoking process,
`new URL("build/schema.graphql", "file:///" + process.cwd() + "/")`. -/
def writeSchemaTarget (cwd : List String) : List String :=
  cwd ++ ["build", "schema.graphql"]

namespace Api

/-- `writeSchema` of `packages/api/src/schema.ts`: a single `writeFile`
of `printSchema(schema)` to the target path, with no directory creation. -/
def writeSchema (cwd : List String) (fs : FS) : Except String FS :=
  writeFileFS fs (cwd ++ ["build"]) "schema.graphql" (printSchema schema)

end Api

namespace Part001

/-- `writeSchema` of the `part_001` variant of `schema.ts`: first
`mkdir(build/, { recursive: true })`, then the same `writeFile`. -/
def writeSchema (cwd : List String) (fs : FS) : Except String FS :=
  writeFileFS (mkdirRecursive fs (cwd ++ ["build"])) (cwd ++ ["build"])
    "schema.graphql" (printSchema schema)

end Part001

/- ## Server entry point (part_000, `src/index.ts`) -/

/-- Observable steps of the server entry point and the build step. -/
inductive ServerEvent where
  | createYoga
  | listen (port : Nat)
  | writeArtifact (path : List String)
deriving DecidableEq, Repr

/-- Recognize a write of the schema artifact. -/
def ServerEvent.isArtifactWrite : ServerEvent → Bool
  | ServerEvent.writeArtifact _ => true
  | _ => false

/-- The startup sequence of `src/index.ts` (part_000): creates the Yoga
instance, starts the HTTP listener on port 4000, then awaits
`writeSchema()`. -/
def serverStartup (cwd : List String) : List ServerEvent :=
  [ServerEvent.createYoga, ServerEvent.listen 4000,
   ServerEvent.writeArtifact (writeSchemaTarget cwd)]

/-- The `src/post-build.ts` build step: a single `writeSchema()`. -/
def postBuild (cwd : List String) : List ServerEvent :=
  [ServerEvent.writeArtifact (writeSchemaTarget cwd)]

/- ## Helper lemmas -/

theorem mem_insertDesc {a p : Post} {l : List Post} :
    a ∈ insertDesc p l ↔ a = p ∨ a ∈ l := by
  induction l with
  | nil => simp [insertDesc]
  | cons q rest ih =>
    by_cases h : q.id ≤ p.id
    · simp [insertDesc, h]
    · simp [insertDesc, h, ih]
      tauto

theorem length_insertDesc (p : Post) (l : List Post) :
    (insertDesc p l).length = l.length + 1 := by
  induction l with
  | nil => simp [insertDesc]
  | cons q rest ih =>
    by_cases h : q.id ≤ p.id
    · simp [insertDesc, h]
    · simp [insertDesc, h, ih]

theorem pairwise_insertDesc {p : Post} {l : List Post}
    (h : l.Pairwise fun a b => b.id ≤ a.id) :
    (insertDesc p l).Pairwise fun a b => b.id ≤ a.id := by
  induction l with
  | nil => simp [insertDesc]
  | cons q rest ih =>
    rcases List.pairwise_cons.mp h with ⟨hq, hrest⟩
    by_cases hle : q.id ≤ p.id
    · simp only [insertDesc, if_pos hle]
      refine List.pairwise_cons.mpr ⟨?_, h⟩
      intro b hb
      rcases List.mem_cons.mp hb with rfl | hb
      · exact hle
      · exact le_trans (hq b hb) hle
    · simp only [insertDesc, if_neg hle]
      refine List.pairwise_cons.mpr ⟨?_, ih hrest⟩
      intro b hb
      rcases mem_insertDesc.mp hb with rfl | hb
      · exact Nat.le_of_not_le hle
      · exact hq b hb

theorem mem_sortByIdDesc {a : Post} {l : List Post} :
    a ∈ sortByIdDesc l ↔ a ∈ l := by
  induction l with
  | nil => simp [sortByIdDesc]
  | cons p rest ih => simp [sortByIdDesc, mem_insertDesc, ih]

theorem length_sortByIdDesc (l : List Post) :
    (sortByIdDesc l).length = l.length := by
  induction l with
  | nil => simp [sortByIdDesc]
  | cons p rest ih => simp [sortByIdDesc, length_insertDesc, ih]

theorem pairwise_sortByIdDesc (l : List Post) :
    (sortByIdDesc l).Pairwise fun a b => b.id ≤ a.id := by
  induction l with
  | nil => simp [sortByIdDesc]
  | cons p rest ih => exact pairwise_insertDesc ih

theorem lookupFile_setFile (files : List (List String × String)) (p : List String) (c : String) :
    lookupFile (setFile files p c) p = some c := by
  induction files with
  | nil => simp [setFile, lookupFile]
  | cons qd rest ih =>
    by_cases h : qd.1 = p
    · simp [setFile, h, lookupFile]
    · simp [setFile, h, lookupFile, ih]

theorem setFile_setFile (files : List (List String × String)) (p : List String) (c : String) :
    setFile (setFile files p c) p c = setFile files p c := by
  induction files with
  | nil => simp [setFile]
  | cons qd rest ih =>
    by_cases h : qd.1 = p
    · simp [setFile, h]
    · simp [setFile, h, ih]

theorem mem_allAncestors_self (d : List String) : d ∈ allAncestors d := by
  simp only [allAncestors, List.mem_map]
  exact ⟨d.length, by simp, by simp⟩

theorem mem_filter_contains {S : List String} {T : ObjectType} {f : String} {i : GField} :
    (f, i) ∈ T.filter (fun p => S.contains p.1) ↔ (f, i) ∈ T ∧ f ∈ S := by
  rw [List.mem_filter]
  simp [List.contains]

/- ## Concrete scenarios used by the claims -/

/-- Database after creating P1, P2, P3 in order from the empty store. -/
def dbThree : Db :=
  (createPost (createPost (createPost Db.empty "P1" "b1").1 "P2" "b2").1 "P3" "b3").1

/-- Database after creating eleven posts in order from the empty store. -/
def dbEleven : Db :=
  (List.range 11).foldl (fun db _ => (createPost db "t" "b").1) Db.empty

/-- The selection written by `+page.svelte`:
`mutate({ createPost: [{ body, title }, { id: true }] })` with
`title = "A"`, `body = "B"` (the shorthand record lists `body` first). -/
def createPostSelection : RootSelection :=
  ⟨"createPost", [("body", "B"), ("title", "A")], ["id"]⟩

/-- A network function answering every request with the server response
`{"data":{"createPost":{"id":"1"}}}` of the round-trip scenario. -/
def createPostResponseFetch : Request → Except String Json := fun _ =>
  Except.ok (Json.obj [("data", Json.obj [("createPost", Json.obj [("id", Json.str "1")])])])

/-- A filesystem in which the working directory `app` and its `build`
subdirectory already exist and no file has been written. -/
def fsWithBuild : FS := ⟨[["app"], ["app", "build"]], []⟩

/- ## Claims -/

/-- Claim C1: for every selection shape S over a result type T, the
derived result type contains exactly the fields of S that are fields of
T, with kind and nullability taken from T — never more fields and never
fewer.  (The derivation itself is modelled from the spec, since the
generated zeus client is gitignored; T ranges over the `ReturnTypes`
object types of part_003.) -/
theorem derived_result_type_exact (S : List String) (T : ObjectType) (h : S ≠ []) :
    ∃ R, deriveResultType S T = Except.ok R ∧
      ∀ f i, ((f, i) ∈ R ↔ f ∈ S ∧ (f, i) ∈ T) := by
  refine ⟨T.filter (fun p => S.contains p.1), ?_, ?_⟩
  · simp [deriveResultType, h]
  · intro f i
    rw [mem_filter_contains]
    tauto

/-- Witness for C1 at the instance named by the spec: selecting
`{id, title}` against `Post` yields exactly those two fields with their
declared kinds and nullability. -/
theorem derived_result_type_exact_witness :
    ((["id", "title"] : List String) ≠ []) ∧
      (∃ R, deriveResultType ["id", "title"] PostReturnType = Except.ok R ∧
        ∀ f i, ((f, i) ∈ R ↔ f ∈ ["id", "title"] ∧ (f, i) ∈ PostReturnType)) :=
  ⟨by decide, derived_result_type_exact _ _ (by decide)⟩

/-- Claim C2, counterexample: for the round-trip scenario (arguments
`{title: "A", body: "B"}`, selection `{id}`, server response
`{"data":{"createPost":{"id":"1"}}}`), the value delivered to the caller
is the unwrapped data object `{createPost: {id: "1"}}`, not `{id: "1"}`
as claimed: `thunder` unwraps only the `data` envelope, and callers such
as `+page.svelte` read the operation field themselves (`data.posts`). -/
theorem mutate_keeps_operation_field :
    mutate createPostResponseFetch createPostSelection
      ≠ Except.ok (Json.obj [("id", Json.str "1")]) := by
  have h1 : mutate createPostResponseFetch createPostSelection
      = Except.ok (Json.obj [("createPost", Json.obj [("id", Json.str "1")])]) := rfl
  rw [h1]
  intro h
  simp only [Except.ok.injEq, Json.obj.injEq, List.cons.injEq, Prod.mk.injEq] at h
  exact absurd h.1.1 (by decide)

/-- Claim C2 as amended: the mutation request of the round-trip scenario
is a single POST to the fixed endpoint whose JSON body is
`{"query": "...", "variables": {"body":"B","title":"A"}}`, and, given the
server response `{"data":{"createPost":{"id":"1"}}}`, the value delivered
to the caller is exactly `{createPost: {id: "1"}}`, whose `createPost`
field is `{id: "1"}`. -/
theorem mutation_roundtrip :
    ((thunderTraced createPostResponseFetch "mutation" createPostSelection).1
      = mkRequest (buildOperation "mutation" createPostSelection) [("body", "B"), ("title", "A")]) ∧
    ((thunderTraced createPostResponseFetch "mutation" createPostSelection).1.method = "POST") ∧
    ((thunderTraced createPostResponseFetch "mutation" createPostSelection).1.url = endpoint) ∧
    ((thunderTraced createPostResponseFetch "mutation" createPostSelection).1.body
      = "\x7b\"query\":\"mutation\x7bcreatePost(body:$body,title:$title)\x7bid\x7d\x7d\",\"variables\":\x7b\"body\":\"B\",\"title\":\"A\"\x7d\x7d") ∧
    (mutate createPostResponseFetch createPostSelection
      = Except.ok (Json.obj [("createPost", Json.obj [("id", Json.str "1")])])) :=
  ⟨rfl, rfl, rfl, by decide, rfl⟩

/-- Claim C3, counterexample: the `posts` resolver of
`packages/api/src/schema.ts` (and `part_001`) passes no `take` to
`findMany`, so with eleven posts created it returns eleven entities,
refuting the claimed maximum result count of 10. -/
theorem posts_exceed_ten : 10 < (postsResolver dbEleven).length := by decide

/-- Claim C3 as amended: the `posts` operation returns all stored
entities, ordered by identifier descending, with no maximum result
count; in particular for entities created in order [P1, P2, P3] it
returns [P3, P2, P1]. -/
theorem posts_list_ordering :
    (postsResolver dbThree = [⟨3, "P3", "b3"⟩, ⟨2, "P2", "b2"⟩, ⟨1, "P1", "b1"⟩]) ∧
    (∀ db : Db, (postsResolver db).length = db.posts.length) ∧
    (∀ db : Db, ∀ p : Post, p ∈ postsResolver db ↔ p ∈ db.posts) ∧
    (∀ db : Db, (postsResolver db).Pairwise fun a b => b.id ≤ a.id) :=
  ⟨by decide,
   fun db => length_sortByIdDesc db.posts,
   fun db p => mem_sortByIdDesc,
   fun db => pairwise_sortByIdDesc db.posts⟩

/-- Claim C4, counterexample: the `posts` list field is declared with an
empty argument list — the builder exposes neither an order nor a limit
argument in its public signature — and the generated `AllTypesProps`
table of part_003 has no `Query` entry at all. -/
theorem posts_field_has_no_args :
    (findFieldSpec queryTypeFields "posts" = some ⟨"posts", [], "[Post!]!"⟩) ∧
    (AllTypesProps.lookup "Query" = none) := by decide

/-- Claim C4 as amended: the public contract of the `posts` list field
exposes no caller-specifiable order and no maximum result count — its
argument list is empty — and the ordering is fixed inside the resolver as
identifier descending. -/
theorem posts_contract_fixed_order :
    ((findFieldSpec queryTypeFields "posts").map FieldSpec.args = some []) ∧
    (∀ db : Db, (postsResolver db).Pairwise fun a b => b.id ≤ a.id) :=
  ⟨by decide, fun db => pairwise_sortByIdDesc db.posts⟩

/-- Claim C5, counterexample: `writeSchema` of
`packages/api/src/schema.ts` performs a bare `writeFile` with no
directory creation — on a filesystem where the working directory exists
but its `build/` subdirectory does not, publishing fails with an I/O
error instead of creating the directory. -/
theorem writeSchema_fails_without_build_dir :
    Api.writeSchema ["app"] ⟨[["app"]], []⟩ = Except.error "ENOENT" := rfl

/-- Claim C5 as amended: `writeSchema` of `packages/api/src/schema.ts`
does not create missing directories and fails when `build/` is absent;
the `part_001` variant of `schema.ts` first runs
`mkdir(build/, { recursive: true })`, so there publishing succeeds on any
filesystem and leaves the serialized schema at the fixed target path. -/
theorem part001_writeSchema_creates_dirs (cwd : List String) (fs : FS) :
    ∃ fs2, Part001.writeSchema cwd fs = Except.ok fs2 ∧
      lookupFile fs2.files (writeSchemaTarget cwd) = some (printSchema schema) := by
  have hmem : (cwd ++ ["build"]) ∈ (mkdirRecursive fs (cwd ++ ["build"])).dirs := by
    simp only [mkdirRecursive, List.mem_append]
    exact Or.inl (mem_allAncestors_self _)
  simp only [Part001.writeSchema, writeFileFS, if_pos hmem]
  refine ⟨_, rfl, ?_⟩
  have hpath : (cwd ++ ["build"]) ++ ["schema.graphql"] = writeSchemaTarget cwd := by
    simp [writeSchemaTarget]
  simp only [hpath]
  exact lookupFile_setFile _ _ _

/-- Claim C6: publishing is idempotent — if publishing succeeds once,
publishing the unchanged schema graph again succeeds, changes nothing,
and the artifact content is the byte-identical `printSchema schema` after
either run. -/
theorem publish_idempotent (cwd : List String) (fs fs1 : FS)
    (h : Api.writeSchema cwd fs = Except.ok fs1) :
    Api.writeSchema cwd fs1 = Except.ok fs1 ∧
      lookupFile fs1.files (writeSchemaTarget cwd) = some (printSchema schema) := by
  unfold Api.writeSchema writeFileFS at h ⊢
  by_cases hd : (cwd ++ ["build"]) ∈ fs.dirs
  · simp only [if_pos hd, Except.ok.injEq] at h
    subst h
    simp only [if_pos hd]
    constructor
    · simp [setFile_setFile]
    · have hpath : (cwd ++ ["build"]) ++ ["schema.graphql"] = writeSchemaTarget cwd := by
        simp [writeSchemaTarget]
      simp only [hpath]
      exact lookupFile_setFile _ _ _
  · simp [if_neg hd] at h

/-- Witness for C6 at a concrete filesystem in which `app/build/`
exists: the first publication succeeds, and the theorem applies to it. -/
theorem publish_idempotent_witness :
    (Api.writeSchema ["app"] fsWithBuild
      = Except.ok ⟨[["app"], ["app", "build"]],
          [(["app", "build", "schema.graphql"], printSchema schema)]⟩) ∧
    (Api.writeSchema ["app"]
        ⟨[["app"], ["app", "build"]],
          [(["app", "build", "schema.graphql"], printSchema schema)]⟩
      = Except.ok ⟨[["app"], ["app", "build"]],
          [(["app", "build", "schema.graphql"], printSchema schema)]⟩ ∧
      lookupFile [(["app", "build", "schema.graphql"], printSchema schema)]
          (writeSchemaTarget ["app"]) = some (printSchema schema)) :=
  ⟨rfl, publish_idempotent ["app"] fsWithBuild
    ⟨[["app"], ["app", "build"]], [(["app", "build", "schema.graphql"], printSchema schema)]⟩ rfl⟩

/-- Claim C7, counterexample: the server entry point (part_000,
`src/index.ts`) awaits `writeSchema()` right after starting the HTTP
listener, so normal server startup does write the schema artifact file,
refuting the claim that no step of normal server operation writes it. -/
theorem startup_writes_artifact :
    ServerEvent.writeArtifact (writeSchemaTarget ["app"]) ∈ serverStartup ["app"] := by
  decide

/-- Claim C7 as amended: the Interchange Artifact is written by the
post-build step and also by the server entry point exactly once at each
server startup, immediately after the HTTP listener starts; it is not
written only at build time. -/
theorem startup_single_artifact_write (cwd : List String) :
    ((serverStartup cwd).filter ServerEvent.isArtifactWrite
      = [ServerEvent.writeArtifact (writeSchemaTarget cwd)]) ∧
    ((postBuild cwd).filter ServerEvent.isArtifactWrite
      = [ServerEvent.writeArtifact (writeSchemaTarget cwd)]) :=
  ⟨rfl, rfl⟩

/-- Claim C8: a selection shape requesting zero fields over a non-scalar
result type is rejected with a generation-time error and never yields a
silently empty result type.  (Modelled from the spec, since the generated
zeus client is gitignored; T ranges over the non-scalar object types.) -/
theorem empty_selection_is_error (T : ObjectType) :
    deriveResultType [] T = Except.error "empty selection on a non-scalar type" := rfl

/-- Claim C9: both call patterns — `query` with explicit fetch and
`mutate` with ambient fetch — issue one POST of
`JSON.stringify(\x7b query, variables \x7d)` to the fixed endpoint,
return the `data` field of the JSON response unwrapped, and propagate any
failure of the network call unchanged as an unstructured failure, never
swallowing it. -/
theorem transport_single_post_unwrapped_data :
    (∀ (s : RootSelection) (e : String), query s (fun _ => Except.error e) = Except.error e) ∧
    (∀ (s : RootSelection) (e : String), mutate (fun _ => Except.error e) s = Except.error e) ∧
    (∀ (s : RootSelection) (d : Json),
      query s (fun _ => Except.ok (Json.obj [("data", d)])) = Except.ok d) ∧
    (∀ (s : RootSelection) (d : Json),
      mutate (fun _ => Except.ok (Json.obj [("data", d)])) s = Except.ok d) ∧
    (∀ (s : RootSelection) (fn : Request → Except String Json),
      (thunderTraced fn "query" s).1 = mkRequest (buildOperation "query" s) s.args) ∧
    (∀ (s : RootSelection) (fn : Request → Except String Json),
      (thunderTraced fn "mutation" s).1 = mkRequest (buildOperation "mutation" s) s.args) ∧
    (∀ (qt : String) (vars : List (String × String)),
      (mkRequest qt vars).method = "POST" ∧ (mkRequest qt vars).url = endpoint ∧
      (mkRequest qt vars).contentType = "application/json" ∧
      (mkRequest qt vars).body = requestBody qt vars) :=
  ⟨fun _ _ => rfl, fun _ _ => rfl, fun _ _ => rfl, fun _ _ => rfl,
   fun _ _ => rfl, fun _ _ => rfl, fun _ _ => ⟨rfl, rfl, rfl, rfl⟩⟩

/-- Claim C10: the publisher resolves `build/schema.graphql` against the
working directory of the call — a successful publication lands at
`writeSchemaTarget cwd`, and two invocations write to the same location
exactly when their working directories are equal. -/
theorem writeSchema_target_tracks_cwd (c1 c2 : List String) (fs fs2 : FS)
    (h : Api.writeSchema c1 fs = Except.ok fs2) :
    lookupFile fs2.files (writeSchemaTarget c1) = some (printSchema schema) ∧
      (writeSchemaTarget c1 = writeSchemaTarget c2 ↔ c1 = c2) := by
  constructor
  · unfold Api.writeSchema writeFileFS at h
    by_cases hd : (c1 ++ ["build"]) ∈ fs.dirs
    · simp only [if_pos hd, Except.ok.injEq] at h
      subst h
      have hpath : (c1 ++ ["build"]) ++ ["schema.graphql"] = writeSchemaTarget c1 := by
        simp [writeSchemaTarget]
      simp only [hpath]
      exact lookupFile_setFile _ _ _
    · simp [if_neg hd] at h
  · constructor
    · intro he
      exact List.append_cancel_right he
    · intro he
      rw [he]

/-- Witness for C10 at two concrete working directories. -/
theorem writeSchema_target_tracks_cwd_witness :
    (Api.writeSchema ["app"] fsWithBuild
      = Except.ok ⟨[["app"], ["app", "build"]],
          [(["app", "build", "schema.graphql"], printSchema schema)]⟩) ∧
    (lookupFile [(["app", "build", "schema.graphql"], printSchema schema)]
        (writeSchemaTarget ["app"]) = some (printSchema schema) ∧
      (writeSchemaTarget ["app"] = writeSchemaTarget ["elsewhere"] ↔ (["app"] : List String) = ["elsewhere"])) :=
  ⟨rfl, writeSchema_target_tracks_cwd ["app"] ["elsewhere"] fsWithBuild _ rfl⟩
